import Mathlib

/-!
Verification of the sensor-data anomaly detector
(src/sensor_data_analyzer.py) against its specification.

The script is a linear pipeline: load a single-column text file with
pandas, filter the values strictly above a fixed threshold, write a
text report, and render a graph.  We embed the pipeline shallowly:

* a sensor value is modelled as a rational number (the script only
  compares values with the threshold, and on the inputs in scope the
  ordering of IEEE doubles agrees with the rational ordering);
* the pandas DataFrame produced by read_csv with a single column is
  modelled by `Column`: pandas converts the column as a whole, so the
  result is either a numeric column or a column of strings (when at
  least one cell fails numeric conversion, the fallback keeps every
  cell of the chunk as a string);
* comparing a string column against a float raises TypeError in
  pandas; `find_anomalies_col` returns `Except.error` in that case;
* the rows of a loaded numeric DataFrame carry their positional
  RangeIndex, modelled by `List.enum`;
* the report is modelled as the list of chunks passed to f.write, and
  writing a file with mode w is modelled by `write_file`, which
  replaces whatever was at the target path;
* the wall-clock timestamp is a parameter of the run.
-/

/- Configuration constants of the script. -/

def INPUT_FILENAME : String := "sensor_data.txt"

def REPORT_FILENAME : String := "anomaly_report.txt"

def OUTPUT_IMAGE_FILENAME : String := "anomaly_graph.png"

def THRESHOLD : Rat := 100

/- Numeric parsing of one cell, modelling the numeric conversion that
pandas applies to a freshly read column: an optional sign, then a
decimal numeral with an optional fractional part. -/

def digitToNat (c : Char) : Nat := c.toNat - 48

def parseNatDigits (cs : List Char) : Option Nat :=
  match cs with
  | [] => none
  | _ =>
    cs.foldl
      (fun acc c =>
        acc.bind (fun n => if c.isDigit then some (10 * n + digitToNat c) else none))
      (some 0)

def parseFracDigits (cs : List Char) : Option Rat :=
  match cs with
  | [] => some 0
  | _ => (parseNatDigits cs).map (fun n => (n : Rat) / ((10 : Rat) ^ cs.length))

def parseUnsignedNumeral (cs : List Char) : Option Rat :=
  let intPart := cs.takeWhile (fun c => !(c == '.'))
  let rest := cs.dropWhile (fun c => !(c == '.'))
  match rest with
  | [] => (parseNatDigits intPart).map (fun n => (n : Rat))
  | _ :: fracPart =>
    if intPart.isEmpty && fracPart.isEmpty then none
    else
      match (if intPart.isEmpty then some 0 else parseNatDigits intPart),
            parseFracDigits fracPart with
      | some ip, some fp => some ((ip : Rat) + fp)
      | _, _ => none

def parseNumeric (s : String) : Option Rat :=
  match s.data with
  | '-' :: cs => (parseUnsignedNumeral cs).map (fun v => -v)
  | '+' :: cs => parseUnsignedNumeral cs
  | cs => parseUnsignedNumeral cs

/-- A single-column pandas DataFrame as produced by read_csv: either
every cell converted to a number (int64/float64 dtype) or, when at
least one cell is not numeric, the whole chunk kept as strings
(object dtype). -/
inductive Column where
  | nums (vs : List Rat)
  | strs (ss : List String)
deriving DecidableEq, Repr

/-- Column-wide numeric conversion: all cells or none. -/
def inferColumn (body : List String) : Column :=
  match body.mapM parseNumeric with
  | some vs => Column.nums vs
  | none => Column.strs body

/-- Model of load_data_with_pandas: `contents` is `none` when the file
does not exist (FileNotFoundError) and `some lines` otherwise; a file
whose lines are all blank raises EmptyDataError (blank lines are
skipped by read_csv).  Returns the DataFrame (or `none`) together with
the messages printed to stderr. -/
def load_data_with_pandas (filename : String) (contents : Option (List String)) :
    Option Column × List String :=
  match contents with
  | none => (none, ["Error: The file " ++ filename ++ " was not found."])
  | some lines =>
    let body := lines.filter (fun l => !(l == ""))
    if body.isEmpty then
      (some (Column.nums []), ["Warning: The file " ++ filename ++ " is empty."])
    else
      (some (inferColumn body), [])

/-- Model of find_anomalies on a numeric DataFrame whose rows are
(positional index, value) pairs: the boolean-mask filter
df[df.value > threshold], its length, and the value column as a list. -/
def find_anomalies (df : List (Nat × Rat)) (threshold : Rat) :
    Nat × List Rat × List (Nat × Rat) :=
  let anomalies_df := df.filter (fun r => decide (threshold < r.2))
  (anomalies_df.length, anomalies_df.map Prod.snd, anomalies_df)

/-- find_anomalies on a loaded Column: a numeric column is compared
row by row (rows indexed by the RangeIndex, i.e. `List.enum`); a
string column compared against a float raises TypeError, which the
script does not catch. -/
def find_anomalies_col (df : Column) (threshold : Rat) :
    Except String (Nat × List Rat × List (Nat × Rat)) :=
  match df with
  | Column.nums vs => Except.ok (find_anomalies vs.enum threshold)
  | Column.strs _ =>
    Except.error
      ("TypeError: comparison not supported between instances of str and float")

/-- Model of generate_text_report: the list of chunks written to the
report file, in the order of the f.write calls. -/
def generate_text_report (current_time : String) (input_filename : String)
    (threshold : Rat) (anomaly_count : Nat) (detected_anomalies : List Rat) :
    List String :=
  ["# Anomaly Detection Report\n\n",
   "- Analysis Timestamp: " ++ current_time ++ "\n",
   "- Data Source: " ++ input_filename ++ "\n",
   "- Anomaly Threshold: " ++ toString threshold ++ "\n\n",
   "-------\n",
   "Total Anomalies Detected: " ++ toString anomaly_count ++ "\n\n"]
  ++ (if detected_anomalies.isEmpty then
        ["No anomalous values were detected.\n"]
      else
        ("Detected Anomalous Values:\n" ::
          detected_anomalies.map (fun anomaly => "- " ++ toString anomaly ++ "\n")))

/-- Model of open(path, mode w) followed by writing `content`: the
file at `path` is created or truncated, every other file untouched. -/
def write_file (fs : String → Option String) (path : String) (content : String) :
    String → Option String :=
  fun p => if p = path then some content else fs p

/-- Observable outcome of one run of main: console/stderr messages in
order, the report chunks if the report was written, whether the graph
was rendered, and the uncaught exception if the run crashed. -/
structure RunOutcome where
  messages : List String
  report : Option (List String)
  graphWritten : Bool
  uncaughtError : Option String
deriving DecidableEq, Repr

/-- Model of main: load the input, stop with a diagnostic when the
file is missing, otherwise run the analyzer and, if it does not raise,
write the report and the graph.  `current_time` is the wall-clock
timestamp, `input_contents` the state of the input file. -/
def main_run (current_time : String) (input_contents : Option (List String)) :
    RunOutcome :=
  let startMsg := "Starting analysis of " ++ INPUT_FILENAME ++ "..."
  match load_data_with_pandas INPUT_FILENAME input_contents with
  | (none, errs) =>
    { messages := startMsg :: errs ++
        ["Analysis stopped because the data file could not be loaded."],
      report := none, graphWritten := false, uncaughtError := none }
  | (some df, warns) =>
    match find_anomalies_col df THRESHOLD with
    | Except.error e =>
      { messages := startMsg :: warns, report := none, graphWritten := false,
        uncaughtError := some e }
    | Except.ok (anomaly_count, detected_anomalies, _anomalies_df) =>
      { messages := startMsg :: warns ++
          ["Text report " ++ REPORT_FILENAME ++ " has been generated.",
           "Graph saved as " ++ OUTPUT_IMAGE_FILENAME,
           "Analysis complete."],
        report := some (generate_text_report current_time INPUT_FILENAME THRESHOLD
            anomaly_count detected_anomalies),
        graphWritten := true, uncaughtError := none }

/- Unfolding equations for the three components of find_anomalies. -/

theorem find_anomalies_count_eq (df : List (Nat × Rat)) (t : Rat) :
    (find_anomalies df t).1 = (df.filter (fun r => decide (t < r.2))).length := rfl

theorem find_anomalies_list_eq (df : List (Nat × Rat)) (t : Rat) :
    (find_anomalies df t).2.1 =
      (df.filter (fun r => decide (t < r.2))).map Prod.snd := rfl

theorem find_anomalies_df_eq (df : List (Nat × Rat)) (t : Rat) :
    (find_anomalies df t).2.2 = df.filter (fun r => decide (t < r.2)) := rfl

/- String helper lemmas: two strings differ when their first
characters differ, even when one of them has unevaluated pieces
appended after a known literal head. -/

theorem head_of_lit_append {c : Char} (lit x : String)
    (h : lit.data.head? = some c) : ((lit ++ x).data).head? = some c := by
  rw [String.data_append]
  cases hd : lit.data with
  | nil => rw [hd] at h; cases h
  | cons a t => rw [hd] at h; simpa using h

theorem append3_ne_of_head_ne {c : Char} (lit x tail s : String)
    (hc : lit.data.head? = some c) (hs : s.data.head? ≠ some c) :
    (lit ++ x) ++ tail ≠ s := by
  intro he
  apply hs
  rw [← he]
  exact head_of_lit_append (lit ++ x) tail (head_of_lit_append lit x hc)

/-- C1: for every dataset and threshold, find_anomalies partitions the
rows by strict comparison with the threshold: every row of the
returned anomalous subset has value strictly above the threshold,
every row of the input not in the subset has value at most the
threshold, and a row whose value equals the threshold is never in the
subset. -/
theorem find_anomalies_partition (df : List (Nat × Rat)) (t : Rat) :
    (∀ r ∈ (find_anomalies df t).2.2, t < r.2) ∧
    (∀ r ∈ df, r ∉ (find_anomalies df t).2.2 → r.2 ≤ t) ∧
    (∀ r ∈ df, r.2 = t → r ∉ (find_anomalies df t).2.2) := by
  refine ⟨?_, ?_, ?_⟩
  · intro r hr
    rw [find_anomalies_df_eq] at hr
    exact of_decide_eq_true (List.mem_filter.mp hr).2
  · intro r hrdf hrn
    by_contra hlt
    push_neg at hlt
    rw [find_anomalies_df_eq] at hrn
    exact hrn (List.mem_filter.mpr ⟨hrdf, decide_eq_true hlt⟩)
  · intro r _ heq hmem
    rw [find_anomalies_df_eq] at hmem
    have hlt := of_decide_eq_true (List.mem_filter.mp hmem).2
    rw [heq] at hlt
    exact lt_irrefl t hlt

theorem find_anomalies_partition_witness :
    ((100 : Rat) < ((0, (150 : Rat)) : Nat × Rat).2) ∧
    (((1, (50 : Rat)) : Nat × Rat).2 ≤ 100) ∧
    (((2, (100 : Rat)) : Nat × Rat) ∉
      (find_anomalies [(0, (150 : Rat)), (1, 50), (2, 100)] 100).2.2) := by
  refine ⟨?_, ?_, ?_⟩
  · exact (find_anomalies_partition [(0, 150), (1, 50), (2, 100)] 100).1
      (0, 150) (by decide)
  · exact (find_anomalies_partition [(0, 150), (1, 50), (2, 100)] 100).2.1
      (1, 50) (by decide) (by decide)
  · exact (find_anomalies_partition [(0, 150), (1, 50), (2, 100)] 100).2.2
      (2, 100) (by decide) rfl

/-- C5: for every dataset and threshold, the list of anomalous values
is exactly the values of the input filtered by the strict threshold
test, in input order; in particular it is a sublist of the input
values, so relative order of occurrence is preserved. -/
theorem find_anomalies_order (df : List (Nat × Rat)) (t : Rat) :
    (find_anomalies df t).2.1 =
      (df.map Prod.snd).filter (fun v => decide (t < v)) ∧
    (find_anomalies df t).2.1.Sublist (df.map Prod.snd) := by
  have h : (find_anomalies df t).2.1 =
      (df.map Prod.snd).filter (fun v => decide (t < v)) := by
    rw [find_anomalies_list_eq, List.filter_map]
    rfl
  exact ⟨h, h ▸ List.filter_sublist _⟩

/-- C6: for every dataset and threshold, the anomaly count returned by
find_anomalies equals the length of the list of anomalous values it
returns. -/
theorem find_anomalies_count_length (df : List (Nat × Rat)) (t : Rat) :
    (find_anomalies df t).1 = (find_anomalies df t).2.1.length := by
  rw [find_anomalies_count_eq, find_anomalies_list_eq, List.length_map]

/-- C7: on the readings [10, 150, 30, 200] with threshold 100,
find_anomalies returns count 2 and the anomalous values [150, 200] in
that order (with their original indices 1 and 3). -/
theorem find_anomalies_scenario :
    find_anomalies ([(10 : Rat), 150, 30, 200].enum) 100 =
      (2, [(150 : Rat), 200], [(1, (150 : Rat)), (3, 200)]) := by decide

/-- C9: find_anomalies is deterministic: two runs on equal dataframes
and equal thresholds return the same count, the same value list and
the same anomalous subset. -/
theorem find_anomalies_deterministic (df₁ df₂ : List (Nat × Rat))
    (t₁ t₂ : Rat) (hd : df₁ = df₂) (ht : t₁ = t₂) :
    (find_anomalies df₁ t₁).1 = (find_anomalies df₂ t₂).1 ∧
    (find_anomalies df₁ t₁).2.1 = (find_anomalies df₂ t₂).2.1 ∧
    (find_anomalies df₁ t₁).2.2 = (find_anomalies df₂ t₂).2.2 := by
  subst hd
  subst ht
  exact ⟨rfl, rfl, rfl⟩

theorem find_anomalies_deterministic_witness :
    (find_anomalies [(0, (150 : Rat))] 100).1 =
      (find_anomalies [(0, (150 : Rat))] 100).1 ∧
    (find_anomalies [(0, (150 : Rat))] 100).2.1 =
      (find_anomalies [(0, (150 : Rat))] 100).2.1 ∧
    (find_anomalies [(0, (150 : Rat))] 100).2.2 =
      (find_anomalies [(0, (150 : Rat))] 100).2.2 :=
  find_anomalies_deterministic [(0, 150)] [(0, 150)] 100 100 rfl rfl

/-- C10: for every dataset (with its positional RangeIndex) and
threshold, the three returned components agree: the value list equals
the value column of the anomalies DataFrame in the same order, every
row of the anomalies DataFrame carries its original positional index
into the input, and the anomalies DataFrame is a sublist of the input
DataFrame. -/
theorem find_anomalies_components_consistent (vs : List Rat) (t : Rat) :
    (find_anomalies vs.enum t).2.1 =
      (find_anomalies vs.enum t).2.2.map Prod.snd ∧
    (∀ p ∈ (find_anomalies vs.enum t).2.2, vs[p.1]? = some p.2) ∧
    (find_anomalies vs.enum t).2.2.Sublist vs.enum := by
  refine ⟨rfl, ?_, ?_⟩
  · intro p hp
    rw [find_anomalies_df_eq] at hp
    have hmem : p ∈ vs.enum := (List.mem_filter.mp hp).1
    obtain ⟨i, x⟩ := p
    exact List.mk_mem_enum_iff_getElem?.mp hmem
  · rw [find_anomalies_df_eq]
    exact List.filter_sublist _

theorem find_anomalies_components_consistent_witness :
    [(10 : Rat), 150][(1 : Nat)]? = some 150 :=
  (find_anomalies_components_consistent [10, 150] 100).2.1 (1, 150) (by decide)

/-- C2 evaluation: on an input file whose lines are 10, abc, 30, the
loader emits no warning and skips nothing (pandas keeps the whole
column as strings), and the run then crashes with an uncaught
TypeError from the threshold comparison: no report, no graph, and the
numeric lines 10 and 30 are never analyzed.  The non-numeric line is
therefore fatal, contrary to the specified skip-with-warning policy. -/
theorem nonnumeric_line_is_fatal :
    load_data_with_pandas INPUT_FILENAME (some ["10", "abc", "30"]) =
      (some (Column.strs ["10", "abc", "30"]), []) ∧
    (main_run ("ts") (some ["10", "abc", "30"])).uncaughtError =
      some ("TypeError: comparison not supported between instances of str and float") ∧
    (main_run ("ts") (some ["10", "abc", "30"])).report = none ∧
    (main_run ("ts") (some ["10", "abc", "30"])).graphWritten = false ∧
    (main_run ("ts") (some ["10", "abc", "30"])).messages =
      ["Starting analysis of sensor_data.txt..."] := by
  refine ⟨?_, ?_, ?_, ?_, ?_⟩ <;> decide

/-- C3: whenever the input file is missing, main stops with diagnostic
messages to the operator, writes no report and renders no graph. -/
theorem missing_input_aborts (ct : String) (contents : Option (List String))
    (h : contents = none) :
    (main_run ct contents).report = none ∧
    (main_run ct contents).graphWritten = false ∧
    ("Error: The file " ++ INPUT_FILENAME ++ " was not found.") ∈
      (main_run ct contents).messages ∧
    ("Analysis stopped because the data file could not be loaded.") ∈
      (main_run ct contents).messages := by
  subst h
  have hm : (main_run ct none).messages =
      ["Starting analysis of " ++ INPUT_FILENAME ++ "...",
       "Error: The file " ++ INPUT_FILENAME ++ " was not found.",
       "Analysis stopped because the data file could not be loaded."] := rfl
  refine ⟨rfl, rfl, ?_, ?_⟩ <;> rw [hm] <;> decide

theorem missing_input_aborts_witness :
    (main_run ("t") none).report = none ∧
    (main_run ("t") none).graphWritten = false ∧
    ("Error: The file " ++ INPUT_FILENAME ++ " was not found.") ∈
      (main_run ("t") none).messages ∧
    ("Analysis stopped because the data file could not be loaded.") ∈
      (main_run ("t") none).messages :=
  missing_input_aborts ("t") none rfl

/-- C4: whenever the input file exists but is empty, the run warns,
proceeds with an empty dataset, reports an anomaly count of zero, and
the written report explicitly contains the line stating that no
anomalous values were detected. -/
theorem empty_input_reports_none_detected (ct : String)
    (contents : Option (List String)) (h : contents = some []) :
    ("Warning: The file " ++ INPUT_FILENAME ++ " is empty.") ∈
      (main_run ct contents).messages ∧
    (main_run ct contents).report =
      some (generate_text_report ct INPUT_FILENAME THRESHOLD 0 []) ∧
    (generate_text_report ct INPUT_FILENAME THRESHOLD 0 [])[5]? =
      some ("Total Anomalies Detected: 0\n\n") ∧
    (generate_text_report ct INPUT_FILENAME THRESHOLD 0 [])[6]? =
      some ("No anomalous values were detected.\n") := by
  subst h
  have hm : (main_run ct (some [])).messages =
      ["Starting analysis of " ++ INPUT_FILENAME ++ "...",
       "Warning: The file " ++ INPUT_FILENAME ++ " is empty.",
       "Text report " ++ REPORT_FILENAME ++ " has been generated.",
       "Graph saved as " ++ OUTPUT_IMAGE_FILENAME,
       "Analysis complete."] := rfl
  refine ⟨?_, rfl, rfl, rfl⟩
  rw [hm]
  decide

theorem empty_input_reports_none_detected_witness :
    ("Warning: The file " ++ INPUT_FILENAME ++ " is empty.") ∈
      (main_run ("t") (some [])).messages ∧
    (main_run ("t") (some [])).report =
      some (generate_text_report ("t") INPUT_FILENAME THRESHOLD 0 []) ∧
    (generate_text_report ("t") INPUT_FILENAME THRESHOLD 0 [])[5]? =
      some ("Total Anomalies Detected: 0\n\n") ∧
    (generate_text_report ("t") INPUT_FILENAME THRESHOLD 0 [])[6]? =
      some ("No anomalous values were detected.\n") :=
  empty_input_reports_none_detected ("t") (some []) rfl

/-- C8: generate_text_report writes, in order: the header line, the
timestamp line, the source-filename line, the threshold line, the
separator line, the total-count line, and then exactly one of the two
tails: one line per anomalous value when the list is non-empty, or the
explicit none-detected line when it is empty — never both; and
write_file (mode w) installs the new content at the target path
whatever was there before. -/
theorem generate_text_report_layout (ct fn : String) (th : Rat) (cnt : Nat)
    (det : List Rat) :
    (generate_text_report ct fn th cnt det =
      ["# Anomaly Detection Report\n\n",
       "- Analysis Timestamp: " ++ ct ++ "\n",
       "- Data Source: " ++ fn ++ "\n",
       "- Anomaly Threshold: " ++ toString th ++ "\n\n",
       "-------\n",
       "Total Anomalies Detected: " ++ toString cnt ++ "\n\n"]
      ++ (if det.isEmpty then ["No anomalous values were detected.\n"]
          else ("Detected Anomalous Values:\n" ::
            det.map (fun anomaly => "- " ++ toString anomaly ++ "\n")))) ∧
    ¬(("No anomalous values were detected.\n") ∈
        generate_text_report ct fn th cnt det ∧
      ("Detected Anomalous Values:\n") ∈
        generate_text_report ct fn th cnt det) ∧
    (∀ fs : String → Option String, ∀ path content : String,
      write_file fs path content path = some content) := by
  refine ⟨rfl, ?_, ?_⟩
  · rintro ⟨hnone, hdet⟩
    cases det with
    | nil =>
      have hc : generate_text_report ct fn th cnt [] =
          ["# Anomaly Detection Report\n\n",
           "- Analysis Timestamp: " ++ ct ++ "\n",
           "- Data Source: " ++ fn ++ "\n",
           "- Anomaly Threshold: " ++ toString th ++ "\n\n",
           "-------\n",
           "Total Anomalies Detected: " ++ toString cnt ++ "\n\n",
           "No anomalous values were detected.\n"] := rfl
      rw [hc] at hdet
      simp only [List.mem_cons, List.not_mem_nil, or_false] at hdet
      rcases hdet with h | h | h | h | h | h | h
      · exact absurd h (by decide)
      · exact absurd h.symm
          (append3_ne_of_head_ne ("- Analysis Timestamp: ") ct ("\n") _ rfl
            (by decide))
      · exact absurd h.symm
          (append3_ne_of_head_ne ("- Data Source: ") fn ("\n") _ rfl (by decide))
      · exact absurd h.symm
          (append3_ne_of_head_ne ("- Anomaly Threshold: ") (toString th)
            ("\n\n") _ rfl (by decide))
      · exact absurd h (by decide)
      · exact absurd h.symm
          (append3_ne_of_head_ne ("Total Anomalies Detected: ") (toString cnt)
            ("\n\n") _ rfl (by decide))
      · exact absurd h (by decide)
    | cons a l =>
      have hc : generate_text_report ct fn th cnt (a :: l) =
          "# Anomaly Detection Report\n\n" ::
          ("- Analysis Timestamp: " ++ ct ++ "\n") ::
          ("- Data Source: " ++ fn ++ "\n") ::
          ("- Anomaly Threshold: " ++ toString th ++ "\n\n") ::
          "-------\n" ::
          ("Total Anomalies Detected: " ++ toString cnt ++ "\n\n") ::
          "Detected Anomalous Values:\n" ::
          ("- " ++ toString a ++ "\n") ::
          l.map (fun anomaly => "- " ++ toString anomaly ++ "\n") := rfl
      rw [hc] at hnone
      simp only [List.mem_cons, List.mem_map] at hnone
      rcases hnone with h | h | h | h | h | h | h | h | ⟨b, _, hb⟩
      · exact absurd h (by decide)
      · exact absurd h.symm
          (append3_ne_of_head_ne ("- Analysis Timestamp: ") ct ("\n") _ rfl
            (by decide))
      · exact absurd h.symm
          (append3_ne_of_head_ne ("- Data Source: ") fn ("\n") _ rfl (by decide))
      · exact absurd h.symm
          (append3_ne_of_head_ne ("- Anomaly Threshold: ") (toString th)
            ("\n\n") _ rfl (by decide))
      · exact absurd h (by decide)
      · exact absurd h.symm
          (append3_ne_of_head_ne ("Total Anomalies Detected: ") (toString cnt)
            ("\n\n") _ rfl (by decide))
      · exact absurd h (by decide)
      · exact absurd h.symm
          (append3_ne_of_head_ne ("- ") (toString a) ("\n") _ rfl (by decide))
      · exact absurd hb
          (append3_ne_of_head_ne ("- ") (toString b) ("\n") _ rfl (by decide))
  · intro fs path content
    simp [write_file]

theorem generate_text_report_layout_witness :
    ¬(("No anomalous values were detected.\n") ∈
        generate_text_report ("t") ("f") 100 0 [] ∧
      ("Detected Anomalous Values:\n") ∈
        generate_text_report ("t") ("f") 100 0 []) :=
  (generate_text_report_layout ("t") ("f") 100 0 []).2.1
